import Mathlib

/-
Verification of the FastAPI GitOps starter application (src/app/main.py)
against its natural-language specification.

The application is a flat set of five pure HTTP handlers.  We embed JSON
response bodies as an inductive value type, each handler as a Lean
function producing a `Response` (status code plus body), and request
dispatch as a total function from a `Request` type to `Response`.
The external framework's request-validation layer (integer path-parameter
binding and required query parameters) is modelled explicitly where a
claim depends on it.
-/

namespace GitOpsStarter

/-- JSON values, as produced by the handlers in src/app/main.py. -/
inductive Json where
  | str (s : String)
  | int (n : Int)
  | bool (b : Bool)
  | arr (elems : List Json)
  | obj (fields : List (String × Json))

/-- Field lookup in a JSON object (first binding wins); `none` on
non-objects or missing keys. -/
def Json.lookup : Json → String → Option Json
  | .obj fields, key => fields.lookup key
  | _, _ => none

/-- Names of the fields of a JSON object, in order. -/
def Json.fieldNames : Json → List String
  | .obj fields => fields.map Prod.fst
  | _ => []

/-- An HTTP response: status code and JSON body. -/
structure Response where
  status : Nat
  body : Json

/-- Handler for GET /: `root` in src/app/main.py.  FastAPI returns the
dictionary with the default status 200. -/
def root : Response :=
  ⟨200, .obj [("message", .str "Welcome to FastAPI GitOps Starter!")]⟩

/-- Handler for GET /health: `health_check` in src/app/main.py, an
explicit JSONResponse with status_code 200. -/
def health_check : Response :=
  ⟨200, .obj [("status", .str "healthy"),
              ("service", .str "fastapi-gitops-starter")]⟩

/-- Handler for GET /api/items: `list_items` in src/app/main.py, a fixed
dictionary literal returned with the default status 200. -/
def list_items : Response :=
  ⟨200, .obj [("items", .arr
    [ .obj [("id", .int 1), ("name", .str "Item 1"),
            ("description", .str "First item")],
      .obj [("id", .int 2), ("name", .str "Item 2"),
            ("description", .str "Second item")],
      .obj [("id", .int 3), ("name", .str "Item 3"),
            ("description", .str "Third item")] ])]⟩

/-- Handler for POST /api/items: `create_item` in src/app/main.py.
Echoes both string parameters with a constant id 999 and created = true,
default status 200. -/
def create_item (name description : String) : Response :=
  ⟨200, .obj [("id", .int 999), ("name", .str name),
              ("description", .str description),
              ("created", .bool true)]⟩

/-- Handler for GET /api/items/\x7bitem_id\x7d: `get_item` in
src/app/main.py.  The f-strings render the integer in decimal, which
`toString : Int → String` matches (minus sign then digits). -/
def get_item (item_id : Int) : Response :=
  ⟨200, .obj [("id", .int item_id),
              ("name", .str ("Item " ++ toString item_id)),
              ("description", .str ("This is item number " ++ toString item_id))]⟩

/-- The items array of a response body, as a list of records. -/
def itemsOf (r : Response) : List Json :=
  match r.body.lookup "items" with
  | some (.arr xs) => xs
  | _ => []

/-- A request to one of the five routes of the application, after the
framework has bound the parameters. -/
inductive Request where
  | getRoot
  | getHealth
  | listItems
  | createItem (name description : String)
  | getItem (item_id : Int)
  deriving Repr, DecidableEq

/-- The application's route table: every request is dispatched to its
handler, a pure function of the request alone (no handler in
src/app/main.py reads or writes any variable outside its own scope). -/
def handle : Request → Response
  | .getRoot => root
  | .getHealth => health_check
  | .listItems => list_items
  | .createItem name description => create_item name description
  | .getItem item_id => get_item item_id

/-- Serving a sequence of requests: each response depends only on its own
request, reflecting that the handlers share no state. -/
def serve (reqs : List Request) : List Response :=
  reqs.map handle

/-- Python's `os.getenv(name, default)`: the variable's value when set,
the default otherwise.  The environment is a partial map from names to
values. -/
def getenv (env : String → Option String) (name default : String) : String :=
  (env name).getD default

/-- The root_path argument passed when constructing the application in
src/app/main.py: `os.getenv("ROOT_PATH", "/GitOps-Starter")`. -/
def root_path (env : String → Option String) : String :=
  getenv env "ROOT_PATH" "/GitOps-Starter"

/-- An HTTP method. -/
inductive Method where
  | GET
  | POST
  deriving Repr, DecidableEq

/-- The five routes registered on the application in src/app/main.py, in
source order. -/
def routes : List (Method × String) :=
  [ (.GET, "/"),
    (.GET, "/health"),
    (.GET, "/api/items"),
    (.POST, "/api/items"),
    (.GET, "/api/items/{item_id}") ]

/-- Modelled from the spec: the external framework's mounting of routes
under the configured root path, missing from src/ ("Root path prefix: a
configurable string prepended to all mounted routes, used for
reverse-proxy deployments"). -/
def mountedPath (rootPath path : String) : String :=
  rootPath ++ path

/-- Decimal digit accumulation for the integer parameter parser; fails on
the first non-digit character. -/
def parseDigitsAux (acc : Nat) : List Char → Option Nat
  | [] => some acc
  | c :: cs =>
      if c.isDigit then parseDigitsAux (10 * acc + (c.toNat - 48)) cs
      else none

/-- A non-empty run of decimal digits, as a natural number. -/
def parseDigits : List Char → Option Nat
  | [] => none
  | c :: cs => parseDigitsAux 0 (c :: cs)

/-- Modelled from the spec: the external framework's integer binding of
the `item_id` path parameter, missing from src/ ("must parse as an
integer (enforced by the external framework's parameter binding, which
fails the request with a client-error status if parsing fails)").  A
segment parses as an optional minus sign followed by decimal digits. -/
def parseIntParam (s : String) : Option Int :=
  match s.toList with
  | [] => none
  | c :: cs =>
      if c = '-' then (parseDigits cs).map (fun n => -(n : Int))
      else (parseDigits (c :: cs)).map (fun n => (n : Int))

/-- Modelled from the spec: the structured validation-error response the
external framework produces when binding fails, missing from src/
("malformed integer path parameters or missing required string
parameters produce a client-error (4xx) response with a structured
validation-error body"); the framework uses status 422. -/
def validationErrorResponse : Response :=
  ⟨422, .obj [("detail", .str "validation error")]⟩

/-- GET /api/items/\x7bitem_id\x7d as seen from the wire: the framework
binds the path segment to an integer and only then invokes `get_item`;
an unparseable segment is answered by the validation layer instead. -/
def getItemEndpoint (segment : String) : Response :=
  match parseIntParam segment with
  | some n => get_item n
  | none => validationErrorResponse

/-- POST /api/items as seen from the wire: the framework requires both
string parameters to be present and only then invokes `create_item`; a
missing parameter is answered by the validation layer instead. -/
def createItemEndpoint (nameParam descriptionParam : Option String) : Response :=
  match nameParam, descriptionParam with
  | some name, some description => create_item name description
  | _, _ => validationErrorResponse

/-- C1: for every integer n, GET /api/items/\x7bn\x7d succeeds with
status 200 and a body whose id equals n, whose name is "Item " followed
by the decimal rendering of n, and whose description is "This is item
number " followed by the decimal rendering of n. -/
theorem getItem_roundtrip (n : Int) :
    (handle (.getItem n)).status = 200 ∧
    Json.lookup (handle (.getItem n)).body "id" = some (.int n) ∧
    Json.lookup (handle (.getItem n)).body "name" =
      some (.str ("Item " ++ toString n)) ∧
    Json.lookup (handle (.getItem n)).body "description" =
      some (.str ("This is item number " ++ toString n)) :=
  ⟨rfl, rfl, rfl, rfl⟩

/-- C2: for every pair of strings, the create-item handler returns
status 200 with a body of exactly the fields id = 999, the echoed name,
the echoed description, and created = true. -/
theorem createItem_echo (name description : String) :
    (handle (.createItem name description)).status = 200 ∧
    Json.fieldNames (handle (.createItem name description)).body =
      ["id", "name", "description", "created"] ∧
    Json.lookup (handle (.createItem name description)).body "id" =
      some (.int 999) ∧
    Json.lookup (handle (.createItem name description)).body "name" =
      some (.str name) ∧
    Json.lookup (handle (.createItem name description)).body "description" =
      some (.str description) ∧
    Json.lookup (handle (.createItem name description)).body "created" =
      some (.bool true) :=
  ⟨rfl, rfl, rfl, rfl, rfl, rfl⟩

/-- Witness for C1 at n = 5, the input exercised by the repository's
test suite. -/
theorem getItem_roundtrip_witness :
    (handle (.getItem 5)).status = 200 ∧
    Json.lookup (handle (.getItem 5)).body "id" = some (.int 5) ∧
    Json.lookup (handle (.getItem 5)).body "name" =
      some (.str ("Item " ++ toString (5 : Int))) ∧
    Json.lookup (handle (.getItem 5)).body "description" =
      some (.str ("This is item number " ++ toString (5 : Int))) :=
  getItem_roundtrip 5

/-- Witness for C2 at the inputs exercised by the repository's test
suite. -/
theorem createItem_echo_witness :
    (handle (.createItem "John Doe" "I am a description")).status = 200 ∧
    Json.fieldNames (handle (.createItem "John Doe" "I am a description")).body =
      ["id", "name", "description", "created"] ∧
    Json.lookup (handle (.createItem "John Doe" "I am a description")).body "id" =
      some (.int 999) ∧
    Json.lookup (handle (.createItem "John Doe" "I am a description")).body "name" =
      some (.str "John Doe") ∧
    Json.lookup (handle (.createItem "John Doe" "I am a description")).body
      "description" = some (.str "I am a description") ∧
    Json.lookup (handle (.createItem "John Doe" "I am a description")).body
      "created" = some (.bool true) :=
  createItem_echo "John Doe" "I am a description"

/-- C3: the root path is selected by the ROOT_PATH environment variable,
defaults to "/GitOps-Starter" when it is unset, and all five mounted
routes are served at paths prefixed by it. -/
theorem rootPath_config (env : String → Option String) :
    (env "ROOT_PATH" = none → root_path env = "/GitOps-Starter") ∧
    (∀ s, env "ROOT_PATH" = some s → root_path env = s) ∧
    routes.length = 5 ∧
    (∀ r ∈ routes, mountedPath (root_path env) r.2 = root_path env ++ r.2) := by
  refine ⟨fun h => ?_, fun s h => ?_, rfl, fun r _ => rfl⟩
  · simp [root_path, getenv, h]
  · simp [root_path, getenv, h]

/-- Witness for C3 at two concrete environments: one without ROOT_PATH,
one binding it to "/x". -/
theorem rootPath_config_witness :
    root_path (fun _ => none) = "/GitOps-Starter" ∧
    root_path (fun _ => some "/x") = "/x" :=
  ⟨(rootPath_config (fun _ => none)).1 rfl,
   (rootPath_config (fun _ => some "/x")).2.1 "/x" rfl⟩

/-- C4: create-item has no observable side effect: after any number of
create calls the response to any request is what it would have been
alone, the list-items response is still the fixed literal, the created
record never appears among the listed items, and no get-item response
body ever equals a created body. -/
theorem createItem_frame (creates : List (String × String)) (r : Request)
    (name description : String) :
    serve (creates.map (fun p => Request.createItem p.1 p.2) ++ [r]) =
      creates.map (fun p => create_item p.1 p.2) ++ [handle r] ∧
    (serve (creates.map (fun p => Request.createItem p.1 p.2) ++
        [Request.listItems])).getLast? = some list_items ∧
    (create_item name description).body ∉ itemsOf list_items ∧
    (∀ k : Int, (get_item k).body ≠ (create_item name description).body) := by
  refine ⟨?_, ?_, ?_, ?_⟩
  · simp only [serve, List.map_append, List.map_map]
    rfl
  · simp only [serve, List.map_append, List.map_map, List.map_cons,
      List.map_nil, List.getLast?_concat]
    rfl
  · intro h
    have h2 : (Json.lookup (create_item name description).body "created").isSome ∈
        (itemsOf list_items).map (fun j => (Json.lookup j "created").isSome) :=
      List.mem_map_of_mem _ h
    have h3 : (Json.lookup (create_item name description).body "created").isSome
        = true := rfl
    have h4 : (itemsOf list_items).map (fun j => (Json.lookup j "created").isSome)
        = [false, false, false] := rfl
    rw [h3, h4] at h2
    exact absurd h2 (by decide)
  · intro k h
    simp [get_item, create_item] at h

/-- Witness for C4: one concrete create call does not disturb the
list-items response, and even get-item at 999 never returns the created
body. -/
theorem createItem_frame_witness :
    serve [Request.createItem "a" "b", Request.listItems] =
      [create_item "a" "b", list_items] ∧
    (get_item 999).body ≠ (create_item "John Doe" "I am a description").body :=
  ⟨(createItem_frame [("a", "b")] .listItems "a" "b").1,
   (createItem_frame [] .listItems "John Doe" "I am a description").2.2.2 999⟩

/-- C5: GET /api/items always returns status 200 with an items field
that is exactly the fixed ordered sequence of three literal records,
the first of which has id 1; the handler takes no input. -/
theorem listItems_fixed :
    (handle .listItems).status = 200 ∧
    itemsOf (handle .listItems) =
      [ .obj [("id", .int 1), ("name", .str "Item 1"),
              ("description", .str "First item")],
        .obj [("id", .int 2), ("name", .str "Item 2"),
              ("description", .str "Second item")],
        .obj [("id", .int 3), ("name", .str "Item 3"),
              ("description", .str "Third item")] ] ∧
    (itemsOf (handle .listItems)).length = 3 ∧
    ((itemsOf (handle .listItems))[0]?.bind (fun rec => Json.lookup rec "id")) =
      some (.int 1) :=
  ⟨rfl, rfl, rfl, rfl⟩

/-- C6: a GET of /api/items/\x7bitem_id\x7d whose segment does not parse
as an integer is answered by the validation layer with a 4xx structured
error and never reaches the handler; a segment that parses as n is
answered exactly by the handler at n. -/
theorem getItem_validation (segment : String) :
    (parseIntParam segment = none →
      400 ≤ (getItemEndpoint segment).status ∧
      (getItemEndpoint segment).status < 500 ∧
      getItemEndpoint segment = validationErrorResponse) ∧
    (∀ n, parseIntParam segment = some n →
      getItemEndpoint segment = get_item n) := by
  constructor
  · intro h
    simp [getItemEndpoint, h, validationErrorResponse]
  · intro n h
    simp [getItemEndpoint, h]

/-- Witness for C6 at the segments "abc" (unparseable) and "5". -/
theorem getItem_validation_witness :
    (400 ≤ (getItemEndpoint "abc").status ∧
      (getItemEndpoint "abc").status < 500 ∧
      getItemEndpoint "abc" = validationErrorResponse) ∧
    getItemEndpoint "5" = get_item 5 :=
  ⟨(getItem_validation "abc").1 rfl,
   (getItem_validation "5").2 5 rfl⟩

/-- C7: a POST of /api/items missing either required parameter is
answered by the validation layer with a 4xx structured error and never
reaches the handler; when both are present, any strings (empty ones
included) are accepted with status 200. -/
theorem createItem_validation (nameParam descriptionParam : Option String) :
    ((nameParam = none ∨ descriptionParam = none) →
      400 ≤ (createItemEndpoint nameParam descriptionParam).status ∧
      (createItemEndpoint nameParam descriptionParam).status < 500 ∧
      createItemEndpoint nameParam descriptionParam = validationErrorResponse) ∧
    (∀ name description, nameParam = some name →
      descriptionParam = some description →
      createItemEndpoint nameParam descriptionParam =
        create_item name description ∧
      (create_item name description).status = 200) := by
  cases nameParam <;> cases descriptionParam <;>
    simp [createItemEndpoint, validationErrorResponse, create_item]

/-- Witness for C7: a request missing the description fails with 422, a
request with both parameters empty succeeds with 200. -/
theorem createItem_validation_witness :
    (400 ≤ (createItemEndpoint (some "John Doe") none).status ∧
      (createItemEndpoint (some "John Doe") none).status < 500 ∧
      createItemEndpoint (some "John Doe") none = validationErrorResponse) ∧
    (createItemEndpoint (some "") (some "") = create_item "" "" ∧
      (create_item "" "").status = 200) :=
  ⟨(createItem_validation (some "John Doe") none).1 (Or.inr rfl),
   (createItem_validation (some "") (some "")).2 "" "" rfl rfl⟩

/-- C8: every handler is stateless and deterministic: in any served
sequence, positions holding equal requests receive equal responses,
whatever stands between them. -/
theorem handlers_deterministic (reqs : List Request) (i j : Nat)
    (h : reqs[i]? = reqs[j]?) :
    (serve reqs)[i]? = (serve reqs)[j]? := by
  simp [serve, List.getElem?_map, h]

/-- Witness for C8: two list-items requests separated by a create
request receive the same response. -/
theorem handlers_deterministic_witness :
    (serve [Request.listItems, Request.createItem "a" "b",
      Request.listItems])[0]? =
    (serve [Request.listItems, Request.createItem "a" "b",
      Request.listItems])[2]? :=
  handlers_deterministic
    [Request.listItems, Request.createItem "a" "b", Request.listItems]
    0 2 rfl

/-- C9: GET /health returns status 200 with a fixed body whose status
field is "healthy" and whose service field is "fastapi-gitops-starter". -/
theorem healthCheck_fixed :
    (handle .getHealth).status = 200 ∧
    Json.lookup (handle .getHealth).body "status" = some (.str "healthy") ∧
    Json.lookup (handle .getHealth).body "service" =
      some (.str "fastapi-gitops-starter") :=
  ⟨rfl, rfl, rfl⟩

/-- C10: for n in \x7b1, 2, 3\x7d, the record synthesized by get-item
for n and the n-th listed record agree on id and name but carry
different descriptions. -/
theorem listItems_getItem_agreement (n : Fin 3) :
    (itemsOf list_items)[n.val]?.bind (fun rec => Json.lookup rec "id") =
      some (.int ((n.val + 1 : Nat) : Int)) ∧
    Json.lookup (get_item ((n.val + 1 : Nat) : Int)).body "id" =
      some (.int ((n.val + 1 : Nat) : Int)) ∧
    (itemsOf list_items)[n.val]?.bind (fun rec => Json.lookup rec "name") =
      Json.lookup (get_item ((n.val + 1 : Nat) : Int)).body "name" ∧
    ∃ d₁ d₂ : String,
      (itemsOf list_items)[n.val]?.bind
        (fun rec => Json.lookup rec "description") = some (.str d₁) ∧
      Json.lookup (get_item ((n.val + 1 : Nat) : Int)).body "description" =
        some (.str d₂) ∧
      d₁ ≠ d₂ := by
  fin_cases n
  · exact ⟨rfl, rfl, rfl, "First item", "This is item number 1",
      rfl, rfl, by decide⟩
  · exact ⟨rfl, rfl, rfl, "Second item", "This is item number 2",
      rfl, rfl, by decide⟩
  · exact ⟨rfl, rfl, rfl, "Third item", "This is item number 3",
      rfl, rfl, by decide⟩

/-- Witness for C10 at the first listed item. -/
theorem listItems_getItem_agreement_witness :
    (itemsOf list_items)[(0 : Fin 3).val]?.bind
      (fun rec => Json.lookup rec "id") =
      some (.int (((0 : Fin 3).val + 1 : Nat) : Int)) :=
  (listItems_getItem_agreement 0).1

end GitOpsStarter
